import Mathlib

/-!
# Verification of the RactorLabs/ractor GPT serving shim (`src/gpt/app.py`)

Shallow embedding of the model-lifecycle state machine (`ModelHolder`) and
the request gateway (`/ready`, `/generate`) of `src/gpt/app.py`, together
with proofs settling the spec claims.

Modelling conventions:
* Python `None`/value optionals become `Option`.
* The opaque tokenizer/model objects are modelled by presence flags
  (`tok`, `model : Bool` meaning "the attribute is not `None`").
* Exceptions become `Except String` results; a Python `raise` that happens
  after attribute assignments leaves those assignments in place, so `load`
  returns the (possibly partially mutated) state *and* an optional error.
* Token tensors become `List Nat`; `out[0]` is the generated sequence and
  `out.shape[1]` its length; token counts are `Int` (Python ints).
* Sampling parameters `0.7` and `0.95` are the exact rationals `7/10`,
  `19/20` (they are schema constants, never computed with).
* The external tokenizer / `model.generate` / `tok.decode` collaborators
  are parameters (a `Decoder` record of fallible functions), as the spec
  places their algorithms out of scope.
-/

namespace Ractor

/-- Embedding of `_default_model()`: `os.getenv("RAWORC_GPT_MODEL", "openai/gpt-oss-120b")`.
The environment lookup is the `Option String` argument. -/
def _default_model (env_model : Option String) : String :=
  env_model.getD "openai/gpt-oss-120b"

/-- The pydantic `GenerateRequest` schema with its field defaults
(`src/gpt/app.py` lines 21-36). -/
structure GenerateRequest where
  prompt : String
  model : Option String := none
  max_new_tokens : Option Nat := some 512
  temperature : Option Rat := some (7/10)
  top_p : Option Rat := some (19/20)
  top_k : Option Nat := none
  repetition_penalty : Option Rat := none
  do_sample : Option Bool := some true
  eos_token_id : Option Nat := none
  pad_token_id : Option Nat := none
  stop : Option (List String) := none
  seed : Option Nat := none
  request_id : Option String := none
deriving Repr, DecidableEq

/-- The keyword arguments actually passed to `model.generate(...)`
(`src/gpt/app.py` lines 201-205).  The source passes exactly
`input_ids`, `attention_mask` and `max_new_tokens`; every other sampling
parameter is absent from the call, which the embedding records as a
`none` default that the call constructor never overrides. -/
structure DecodeCall where
  input_ids : List Nat
  attention_mask : List Nat
  max_new_tokens : Nat
  temperature : Option Rat := none
  top_p : Option Rat := none
  top_k : Option Nat := none
  repetition_penalty : Option Rat := none
  do_sample : Option Bool := none
  eos_token_id : Option Nat := none
  pad_token_id : Option Nat := none
deriving Repr, DecidableEq

/-- Assemble the `model.generate` call from the request and the tokenized
prompt: `max_new_tokens=(req.max_new_tokens or 128)` (Python `or` treats
both `None` and `0` as falsy); the attention mask is
`torch.ones_like(input_ids)`. -/
def decodeCallOf (req : GenerateRequest) (input_ids : List Nat) : DecodeCall :=
  { input_ids := input_ids
    attention_mask := input_ids.map (fun _ => 1)
    max_new_tokens :=
      match req.max_new_tokens with
      | some n => if n = 0 then 128 else n
      | none => 128 }

/-- External collaborators of the `/generate` handler: the tokenizer
(`tok(req.prompt)` producing `input_ids`), the decoder
(`model.generate` producing the full output sequence `out[0]`), and the
detokenizer (`tok.decode(gen_ids, skip_special_tokens=False)`).  Each may
raise, modelled by `Except String`. -/
structure Decoder where
  tokenize : String → Except String (List Nat)
  generateOut : DecodeCall → Except String (List Nat)
  detok : List Nat → Except String String

/-- Outcome of the `/generate` handler body:
`ok` is the HTTP 200 `GenerateResponse` (text plus usage counters),
`err503` the HTTP 503 error payload, `loading202` the HTTP 202 payload. -/
inductive GenResult where
  | ok (text : String) (prompt_tokens completion_tokens total_tokens : Int)
  | err503 (msg : String)
  | loading202 (model : String)
deriving Repr, DecidableEq

/-- The generation part of the `/generate` handler (`src/gpt/app.py`
lines 190-249), run once the holder is ready.  The tokenization call at
line 190 is *outside* every `try` block, so its exception propagates as
`Except.error`; the `model.generate` call (lines 199-210) and the decode
of the new token span (lines 213-222) are wrapped in `try`/`except`
blocks that return HTTP 503 payloads.  Usage counters follow lines
226-229 and 241-249. -/
def generateBody (d : Decoder) (req : GenerateRequest) : Except String GenResult :=
  match d.tokenize req.prompt with
  | .error e => .error e
  | .ok input_ids =>
    match d.generateOut (decodeCallOf req input_ids) with
    | .error e => .ok (.err503 ("generation failed: " ++ e))
    | .ok out =>
      let input_len := input_ids.length
      let gen_ids := out.drop input_len
      match d.detok gen_ids with
      | .error e => .ok (.err503 ("decode failed: " ++ e))
      | .ok text =>
        let prompt_tokens : Int := input_ids.length
        let total_tokens : Int := out.length
        let completion_tokens : Int := max 0 (total_tokens - prompt_tokens)
        .ok (.ok text prompt_tokens completion_tokens
          (prompt_tokens + completion_tokens))

/-- Mutable state of `ModelHolder` (`src/gpt/app.py` lines 52-61).
`model` / `tok` record whether the respective attribute `is not None`. -/
structure ModelHolder where
  model_id : Option String
  model : Bool
  tok : Bool
  loading : Bool
  last_error : Option String
  quant_enforced : Bool
  quant_method : Option String
deriving Repr, DecidableEq

/-- Embedding of `ModelHolder.__init__`. -/
def ModelHolder.init : ModelHolder :=
  { model_id := none, model := false, tok := false, loading := false
    last_error := none, quant_enforced := true, quant_method := none }

/-- The `hf_quantizer.quantization_config` attributes inspected by the
verification step (`src/gpt/app.py` lines 91-92): `quant_method` (the
MXFP4 method is represented by the string `"mxfp4"`) and `dequantize`.
`getattr(..., None)` on a missing attribute gives `none`. -/
structure QuantizerInfo where
  quant_method : Option String
  dequantize : Option Bool
deriving Repr, DecidableEq

/-- Behaviour of the external world during one load attempt:
the `RAWORC_GPT_MODEL` environment value, whether the `Mxfp4Config` /
`QuantizationMethod` imports succeeded (lines 11-16), whether the
tokenizer and model loads raise, and the `hf_quantizer` object attached
to the loaded model (or `none` when absent). -/
structure LoadEnv where
  env_model : Option String
  mxfp4_available : Bool
  quant_method_available : Bool
  tokenizer_ok : Bool
  model_load_ok : Bool
  hf_quantizer : Option QuantizerInfo
deriving Repr, DecidableEq

/-- Embedding of `ModelHolder.load` (`src/gpt/app.py` lines 63-97).  Returns the state
after the call together with `some message` when the call raised:
assignments made before a `raise` stay in place, exactly as in Python.
Line by line: line 65 replaces the argument by `_default_model()`;
lines 66-67 early-return when already loaded; line 69 loads the
tokenizer; lines 72-77 require `Mxfp4Config` when `quant_enforced`;
line 79 loads the model (the `.to(device)` move at lines 80-81 always
has a cpu fallback and is modelled as non-failing); lines 82-85 install
`model_id`, clear `last_error` and reset `quant_method`; lines 86-97
verify the quantization and raise when `hf_quantizer` is missing or its
method/dequantize flag disagree with MXFP4. -/
def ModelHolder.load (env : LoadEnv) (s : ModelHolder) (_model_id : String) :
    ModelHolder × Option String :=
  let model_id := _default_model env.env_model
  if s.model_id = some model_id ∧ s.model then (s, none)
  else if ¬ env.tokenizer_ok then (s, some "tokenizer load failed")
  else
    let s := { s with tok := true }
    if s.quant_enforced ∧ ¬ env.mxfp4_available then
      (s, some "MXFP4 is required but not available in transformers build")
    else if ¬ env.model_load_ok then (s, some "model load failed")
    else
      let s := { s with model := true, model_id := some model_id,
                        last_error := none, quant_method := none }
      if s.quant_enforced then
        match env.hf_quantizer with
        | none =>
          (s, some "MXFP4 required but model.hf_quantizer missing (dequantized)")
        | some hq =>
          let s := { s with quant_method := hq.quant_method }
          if env.quant_method_available ∧ hq.quant_method = some "mxfp4" ∧
              hq.dequantize = some false then
            (s, none)
          else
            (s, some "MXFP4 required but quantization fell back (dequantized or different method)")
      else (s, none)

/-- Embedding of `ModelHolder.ready_for` (`src/gpt/app.py` lines 118-120):
`self.model is not None and self.model_id == target` where
`target = _default_model()`; the `model_id` argument is unused. -/
def ModelHolder.ready_for (env_model : Option String) (s : ModelHolder)
    (_model_id : String) : Bool :=
  s.model && decide (s.model_id = some (_default_model env_model))

/-- The locked check-and-flip section of `ModelHolder.ensure_loaded_async`
(`src/gpt/app.py` lines 101-105): returns the state after the critical
section and whether a background load thread was started. -/
def ModelHolder.ensure_loaded_async (env_model : Option String)
    (s : ModelHolder) (_model_id : String) : ModelHolder × Bool :=
  if (s.model ∧ s.model_id = some (_default_model env_model)) ∨ s.loading then
    (s, false)
  else ({ s with loading := true }, true)

/-- The `_worker` closure of `ensure_loaded_async` (`src/gpt/app.py`
lines 107-114) run to completion: `try: self.load(_default_model())`,
`except Exception as e: self.last_error = str(e)`,
`finally: self.loading = False`. -/
def ModelHolder.workerRun (env : LoadEnv) (s : ModelHolder) : ModelHolder :=
  let r := s.load env (_default_model env.env_model)
  let s1 := match r.2 with
    | some e => { r.1 with last_error := some e }
    | none => r.1
  { s1 with loading := false }

/-- The response of the `/ready` endpoint. -/
structure ReadyResponse where
  status : String
  model : String
  loaded : Bool
  loading : Bool
  quant_method : Option String
  error : Option String
deriving Repr, DecidableEq

/-- The `/ready` endpoint (`src/gpt/app.py` lines 130-145): optionally
triggers a background load, then reports
`status = "error" if last_error else ("ready" if loaded else "loading")`.
Returns the holder state after the trigger decision and the response. -/
def readyEndpoint (env_model : Option String) (s : ModelHolder) :
    ModelHolder × ReadyResponse :=
  let model_id := _default_model env_model
  let s :=
    if ¬ (s.ready_for env_model model_id) ∧ ¬ s.loading ∧ s.last_error = none
    then (s.ensure_loaded_async env_model model_id).1 else s
  let loaded := s.ready_for env_model model_id
  let status :=
    if s.last_error.isSome then "error"
    else if loaded then "ready" else "loading"
  (s, { status := status, model := model_id, loaded := loaded,
        loading := s.loading, quant_method := s.quant_method,
        error := s.last_error })

/-- The `/generate` endpoint (`src/gpt/app.py` lines 165-249) against a
holder state: resolve `model_id = _default_model()` (line 167, the
model field of the request is never read); when not ready, trigger the
background load and answer 503 when `last_error` is set, else 202 when
still not ready (lines 169-182); otherwise run the generation body.
Returns the holder state after the trigger decision and the result. -/
def generateEndpoint (env_model : Option String) (s : ModelHolder)
    (d : Decoder) (req : GenerateRequest) :
    ModelHolder × Except String GenResult :=
  let model_id := _default_model env_model
  if ¬ (s.ready_for env_model model_id) then
    let s1 := (s.ensure_loaded_async env_model model_id).1
    if s1.last_error.isSome then
      (s1, .ok (.err503 (s1.last_error.getD "")))
    else if ¬ (s1.ready_for env_model model_id) then
      (s1, .ok (.loading202 model_id))
    else (s1, generateBody d req)
  else (s, generateBody d req)

/-! ## Interleaving semantics of the lifecycle

The HTTP threads and the background load thread share the holder.  The
lock only guards the check-and-flip in `ensure_loaded_async`; the worker
body runs unlocked, so readers can observe the holder between the load
body (which installs `model` / `model_id` inside `load`) and the
`finally` clause (which resets `loading`).  A configuration is the
holder state plus the progress of the background worker. -/

/-- Progress of the (at most one) background `_worker` thread:
`idle` — no thread running; `spawned` — thread started, `load` not yet
executed; `bodyDone` — `try`/`except` finished, `finally` not yet run. -/
inductive WorkerPhase where
  | idle
  | spawned
  | bodyDone
deriving Repr, DecidableEq

/-- A configuration of the concurrent system. -/
structure Config where
  holder : ModelHolder
  worker : WorkerPhase
deriving Repr, DecidableEq

/-- Run the `try`/`except` part of the worker (without the `finally`):
`load` followed by recording `str(e)` in `last_error` on failure. -/
def workerBody (env : LoadEnv) (s : ModelHolder) : ModelHolder :=
  let r := s.load env (_default_model env.env_model)
  match r.2 with
  | some e => { r.1 with last_error := some e }
  | none => r.1

/-- One atomic step of the system: an HTTP thread runs the locked
check-and-flip of `ensure_loaded_async` and it starts a thread
(`trigger`); the worker thread runs its `try`/`except` body
(`runBody`); the worker thread runs its `finally` clause
(`runFinally`).  `ensure_loaded_async` calls that start nothing leave
the configuration unchanged and are omitted as stutter steps. -/
inductive Step (env : LoadEnv) : Config → Config → Prop where
  | trigger {c : Config} :
      (c.holder.ensure_loaded_async env.env_model
        (_default_model env.env_model)).2 = true →
      Step env c
        ⟨(c.holder.ensure_loaded_async env.env_model
          (_default_model env.env_model)).1, .spawned⟩
  | runBody {c : Config} :
      c.worker = .spawned →
      Step env c ⟨workerBody env c.holder, .bodyDone⟩
  | runFinally {c : Config} :
      c.worker = .bodyDone →
      Step env c ⟨{ c.holder with loading := false }, .idle⟩

/-- Reflexive-transitive closure of `Step`, head-first. -/
inductive Reach (env : LoadEnv) : Config → Config → Prop where
  | refl (c : Config) : Reach env c c
  | head {a b c : Config} : Step env a b → Reach env b c → Reach env a c

/-- The initial configuration: a fresh `ModelHolder`, no worker. -/
def Config.init : Config := ⟨ModelHolder.init, .idle⟩

/-! ## Concrete collaborators used as test stubs -/

/-- Stub collaborators: one prompt token, three generated tokens,
detokenizing to `"foo STOP bar"`. -/
def stubStopDecoder : Decoder :=
  { tokenize := fun _ => .ok [0]
    generateOut := fun _ => .ok [0, 1, 2, 3]
    detok := fun _ => .ok "foo STOP bar" }

/-- A request carrying `stop=["STOP"]`. -/
def stopReq : GenerateRequest := { prompt := "x", stop := some ["STOP"] }

/-- Stub collaborators whose tokenizer raises. -/
def tokFailDecoder : Decoder :=
  { tokenize := fun _ => .error "tokenizer raised"
    generateOut := fun _ => .ok []
    detok := fun _ => .ok "" }

/-- Echo stub for the prompt `"Hello"`: the prompt tokenizes to
`[10, 11]`, the decoder echoes the prompt and appends `[12, 13]`, and
detokenization maps the new span to `", world"` and the full sequence to
`"Hello, world"`. -/
def echoDecoder : Decoder :=
  { tokenize := fun s => if s = "Hello" then .ok [10, 11] else .error "unexpected prompt"
    generateOut := fun _ => .ok [10, 11, 12, 13]
    detok := fun ids =>
      if ids = [12, 13] then .ok ", world"
      else if ids = [10, 11, 12, 13] then .ok "Hello, world"
      else .error "unexpected ids" }

/-- Stub collaborators whose output sequence (length 2) is shorter than
the tokenized prompt (length 3). -/
def shortDecoder : Decoder :=
  { tokenize := fun _ => .ok [1, 2, 3]
    generateOut := fun _ => .ok [1, 2]
    detok := fun _ => .ok "" }

/-- A holder state holding the default model, as left by a fully
successful load. -/
def readyHolder : ModelHolder :=
  { model_id := some "openai/gpt-oss-120b", model := true, tok := true,
    loading := false, last_error := none, quant_enforced := true,
    quant_method := some "mxfp4" }

/-- A load environment in which everything succeeds and the loaded model
carries a well-formed MXFP4 quantizer. -/
def envGood : LoadEnv :=
  { env_model := none, mxfp4_available := true, quant_method_available := true,
    tokenizer_ok := true, model_load_ok := true,
    hf_quantizer := some { quant_method := some "mxfp4", dequantize := some false } }

/-- A load environment in which the model loads but comes back with no
`hf_quantizer` attached (silent dequantized fallback). -/
def envNoQuantizer : LoadEnv :=
  { env_model := none, mxfp4_available := true, quant_method_available := true,
    tokenizer_ok := true, model_load_ok := true, hf_quantizer := none }

/-- A load environment in which the `Mxfp4Config` import is unavailable,
so `load` raises before touching the model. -/
def envNoMxfp4 : LoadEnv :=
  { env_model := none, mxfp4_available := false, quant_method_available := false,
    tokenizer_ok := true, model_load_ok := true, hf_quantizer := none }

/-! ## Helper lemmas -/

/-- Unfolding of `generateBody` once tokenization has succeeded. -/
theorem generateBody_eq (d : Decoder) (req : GenerateRequest) (ids : List Nat)
    (htok : d.tokenize req.prompt = .ok ids) :
    generateBody d req =
      match d.generateOut (decodeCallOf req ids) with
      | .error e => .ok (.err503 ("generation failed: " ++ e))
      | .ok out =>
        match d.detok (out.drop ids.length) with
        | .error e => .ok (.err503 ("decode failed: " ++ e))
        | .ok text =>
          .ok (.ok text ids.length
            (max 0 ((out.length : Int) - ids.length))
            (ids.length + max 0 ((out.length : Int) - ids.length))) := by
  unfold generateBody
  rw [htok]

/-! ## Claims -/

/-- Claim C2 counterexample: The claim says the decode call is invoked
with `temperature` defaulting to `0.7`, `top_p` to `0.95` and
`do_sample` to `true`.  On an all-defaults request the call assembled by
the handler carries none of these: `model.generate` receives only
`input_ids`, `attention_mask` and `max_new_tokens`. -/
theorem C2_counterexample :
    (decodeCallOf { prompt := "hi" } [1, 2]).temperature = none ∧
    ¬ (decodeCallOf { prompt := "hi" } [1, 2]).temperature = some (7/10) ∧
    (decodeCallOf { prompt := "hi" } [1, 2]).top_p = none ∧
    (decodeCallOf { prompt := "hi" } [1, 2]).do_sample = none ∧
    (decodeCallOf { prompt := "hi" } [1, 2]).max_new_tokens = 512 := by
  refine ⟨rfl, ?_, rfl, rfl, rfl⟩
  decide

/-- Claim C2 amended: For every request the decode call carries only
`input_ids`, `attention_mask` and `max_new_tokens`; `temperature`,
`top_p`, `top_k`, `repetition_penalty`, `do_sample`, `eos_token_id` and
`pad_token_id` are always omitted from it.  The request *schema*
defaults `max_new_tokens` to 512, `temperature` to 0.7, `top_p` to 0.95
and `do_sample` to true, and an unsupplied `max_new_tokens` reaches the
decode call as 512. -/
theorem C2_decode_call_args (req : GenerateRequest) (p : String) (ids : List Nat) :
    (decodeCallOf req ids).temperature = none ∧
    (decodeCallOf req ids).top_p = none ∧
    (decodeCallOf req ids).top_k = none ∧
    (decodeCallOf req ids).repetition_penalty = none ∧
    (decodeCallOf req ids).do_sample = none ∧
    (decodeCallOf req ids).eos_token_id = none ∧
    (decodeCallOf req ids).pad_token_id = none ∧
    (decodeCallOf req ids).input_ids = ids ∧
    (decodeCallOf { prompt := p } ids).max_new_tokens = 512 ∧
    ({ prompt := p } : GenerateRequest).max_new_tokens = some 512 ∧
    ({ prompt := p } : GenerateRequest).temperature = some (7/10) ∧
    ({ prompt := p } : GenerateRequest).top_p = some (19/20) ∧
    ({ prompt := p } : GenerateRequest).do_sample = some true := by
  refine ⟨rfl, rfl, rfl, rfl, rfl, rfl, rfl, rfl, rfl, rfl, rfl, rfl, rfl⟩

/-- Claim C3 counterexample: With `stop=["STOP"]` and a stub decode
output `"foo STOP bar"`, the response text is the full `"foo STOP bar"`,
not the truncated `"foo "`: the handler never applies stop strings
(`src/gpt/app.py` line 224: the generated text is not trimmed). -/
theorem C3_counterexample :
    generateBody stubStopDecoder stopReq =
      .ok (.ok "foo STOP bar" 1 3 4) ∧
    "foo STOP bar" ≠ "foo " := by
  refine ⟨rfl, ?_⟩
  decide

/-- Claim C3 amended: Stop strings are accepted by the request schema
but ignored: the handler result does not depend on the `stop` field,
and the response text is the detokenized new-token span untrimmed. -/
theorem C3_stop_ignored (d : Decoder) (req : GenerateRequest)
    (stops : Option (List String)) :
    generateBody d { req with stop := stops } = generateBody d req := rfl

/-- Claim C4 counterexample: A tokenization exception is NOT caught: the
tokenizer call (`src/gpt/app.py` line 190) sits outside every
`try` block, so with a raising tokenizer the handler propagates the
exception to the transport layer instead of answering 503, even from a
ready holder. -/
theorem C4_counterexample :
    (generateEndpoint none readyHolder tokFailDecoder { prompt := "hi" }).2 =
      .error "tokenizer raised" := rfl

/-- Claim C4 amended: Once tokenization has succeeded, no exception
escapes the handler: a decoding (generation) failure is answered as a
503 payload `"generation failed: ..."`, a detokenization failure as a
503 payload `"decode failed: ..."`, and otherwise a 200 response is
produced; an exception raised by tokenization itself propagates
(see the counterexample). -/
theorem C4_no_propagation_after_tokenize (d : Decoder) (req : GenerateRequest)
    (ids : List Nat) (htok : d.tokenize req.prompt = .ok ids) :
    (∃ r : GenResult, generateBody d req = .ok r) ∧
    (∀ e, d.generateOut (decodeCallOf req ids) = .error e →
      generateBody d req = .ok (.err503 ("generation failed: " ++ e))) ∧
    (∀ e out, d.generateOut (decodeCallOf req ids) = .ok out →
      d.detok (out.drop ids.length) = .error e →
      generateBody d req = .ok (.err503 ("decode failed: " ++ e))) := by
  have hbody := generateBody_eq d req ids htok
  refine ⟨?_, ?_, ?_⟩
  · cases hg : d.generateOut (decodeCallOf req ids) with
    | error e =>
      exact ⟨.err503 ("generation failed: " ++ e), by simp only [hbody, hg]⟩
    | ok out =>
      cases hd : d.detok (out.drop ids.length) with
      | error e =>
        exact ⟨.err503 ("decode failed: " ++ e), by simp only [hbody, hg, hd]⟩
      | ok text =>
        exact ⟨.ok text ids.length
          (max 0 ((out.length : Int) - ids.length))
          (ids.length + max 0 ((out.length : Int) - ids.length)),
          by simp only [hbody, hg, hd]⟩
  · intro e hg
    simp only [hbody, hg]
  · intro e out hg hd
    simp only [hbody, hg, hd]

/-- Claim C4 witness: Concrete instance: the stub collaborators tokenize
successfully, so the handler yields a non-propagating result. -/
theorem C4_witness :
    stubStopDecoder.tokenize "x" = .ok [0] ∧
    (∃ r : GenResult, generateBody stubStopDecoder stopReq = .ok r) :=
  ⟨rfl, (C4_no_propagation_after_tokenize stubStopDecoder stopReq [0] rfl).1⟩

/-- Claim C5: Whatever the load does — return normally or raise — the
`_worker` wrapper of `ensure_loaded_async` ends with `loading = false`
(the `finally` clause), and when the load raised with message `e` the
worker records `last_error = e` (the `except` clause). -/
theorem C5_worker_always_resets_loading (env : LoadEnv) (s : ModelHolder)
    (e : String) :
    (s.workerRun env).loading = false ∧
    ((s.load env (_default_model env.env_model)).2 = some e →
      (s.workerRun env).last_error = some e) := by
  unfold ModelHolder.workerRun
  constructor
  · cases h : (s.load env (_default_model env.env_model)).2 <;> simp [h]
  · intro herr
    simp [herr]

/-- Claim C5 witness: With the `Mxfp4Config` import unavailable the load
raises; from a fresh holder the worker ends not loading with the raised
message recorded. -/
theorem C5_witness :
    (ModelHolder.init.load envNoMxfp4 (_default_model none)).2 =
      some "MXFP4 is required but not available in transformers build" ∧
    (ModelHolder.init.workerRun envNoMxfp4).loading = false ∧
    (ModelHolder.init.workerRun envNoMxfp4).last_error =
      some "MXFP4 is required but not available in transformers build" := by
  refine ⟨by decide, ?_, ?_⟩
  · exact (C5_worker_always_resets_loading envNoMxfp4 ModelHolder.init
      "MXFP4 is required but not available in transformers build").1
  · exact (C5_worker_always_resets_loading envNoMxfp4 ModelHolder.init
      "MXFP4 is required but not available in transformers build").2 (by decide)

/-- Iterate the locked check-and-flip of `ensure_loaded_async` `n` times
(the lock serializes the critical sections of `n` concurrent callers),
counting how many background load threads get started. -/
def ensureN (env_model : Option String) (model_id : String) :
    Nat → ModelHolder → ModelHolder × Nat
  | 0, s => (s, 0)
  | n + 1, s =>
    let r := s.ensure_loaded_async env_model model_id
    let rest := ensureN env_model model_id n r.1
    (rest.1, (if r.2 then 1 else 0) + rest.2)

/-- A holder with `loading = true` is left unchanged by
`ensure_loaded_async`, which starts nothing. -/
theorem ensure_noop_of_loading (em : Option String) (mid : String)
    (s : ModelHolder) (h : s.loading = true) :
    s.ensure_loaded_async em mid = (s, false) := by
  unfold ModelHolder.ensure_loaded_async
  rw [if_pos (Or.inr (by simp [h]))]

/-- Iterating `ensure_loaded_async` on a holder with `loading = true`
starts nothing. -/
theorem ensureN_of_loading (em : Option String) (mid : String) (n : Nat)
    (s : ModelHolder) (h : s.loading = true) :
    ensureN em mid n s = (s, 0) := by
  induction n with
  | zero => rfl
  | succ n ih =>
    unfold ensureN
    rw [ensure_noop_of_loading em mid s h]
    simp [ih]

/-- Claim C6: The trigger is idempotent: `n + 1` serialized calls of
`ensure_loaded_async` from a holder that is neither ready for the target
nor loading start exactly one background load; and any call finding the
holder ready for the target or already loading returns immediately
without change and without starting work. -/
theorem C6_idempotent_trigger (em : Option String) (mid : String) (n : Nat)
    (s : ModelHolder)
    (hready : ¬ (s.model ∧ s.model_id = some (_default_model em)))
    (hload : s.loading = false) :
    (ensureN em mid (n + 1) s).2 = 1 ∧
    (∀ t : ModelHolder,
      ((t.model ∧ t.model_id = some (_default_model em)) ∨ t.loading) →
      t.ensure_loaded_async em mid = (t, false)) := by
  constructor
  · unfold ensureN
    have hstart : s.ensure_loaded_async em mid =
        ({ s with loading := true }, true) := by
      unfold ModelHolder.ensure_loaded_async
      rw [if_neg]
      exact not_or.mpr ⟨hready, by simp [hload]⟩
    rw [hstart]
    simp [ensureN_of_loading em mid n { s with loading := true } rfl]
  · intro t ht
    unfold ModelHolder.ensure_loaded_async
    rw [if_pos ht]

/-- Claim C6 witness: Three serialized calls from a fresh holder start
exactly one background load. -/
theorem C6_witness :
    ¬ (ModelHolder.init.model ∧
        ModelHolder.init.model_id = some (_default_model none)) ∧
    ModelHolder.init.loading = false ∧
    (ensureN none "openai/gpt-oss-120b" 3 ModelHolder.init).2 = 1 :=
  ⟨by decide, rfl,
    (C6_idempotent_trigger none "openai/gpt-oss-120b" 2 ModelHolder.init
      (by decide) rfl).1⟩

/-- Claim C8: Only the newly generated token span is detokenized: when
the decoder output extends the tokenized prompt `ids` with `extra`, the
response text is the detokenization of `extra` alone — the echoed prompt
tokens are dropped before detokenization. -/
theorem C8_decode_only_new_span (d : Decoder) (req : GenerateRequest)
    (ids extra : List Nat) (text : String)
    (htok : d.tokenize req.prompt = .ok ids)
    (hgen : d.generateOut (decodeCallOf req ids) = .ok (ids ++ extra))
    (hdec : d.detok extra = .ok text) :
    generateBody d req =
      .ok (.ok text ids.length extra.length (ids.length + extra.length)) := by
  have hbody := generateBody_eq d req ids htok
  have hdrop : (ids ++ extra).drop ids.length = extra := List.drop_left ids extra
  have hcomp : max 0 (((ids ++ extra).length : Int) - ids.length) =
      (extra.length : Int) := by
    rw [List.length_append]
    push_cast
    rw [add_sub_cancel_left]
    exact max_eq_right (Nat.cast_nonneg _)
  simp only [hbody, hgen, hdrop, hdec, hcomp]

/-- Claim C8 witness: With prompt `"Hello"` and a decoder echoing the
prompt (full output detokenizes to `"Hello, world"`), the response text
is `", world"`, which does not start with the prompt `"Hello"`. -/
theorem C8_witness :
    generateBody echoDecoder { prompt := "Hello" } =
      .ok (.ok ", world" 2 2 4) ∧
    List.isPrefixOf "Hello".data ", world".data = false := by
  constructor
  · exact C8_decode_only_new_span echoDecoder { prompt := "Hello" }
      [10, 11] [12, 13] ", world" rfl rfl rfl
  · decide

/-- Claim C9: Usage counters of a successful generation: the reported
`completion_tokens` is the raw output length minus the prompt length
floored at zero (also when the output is shorter than the prompt), and
the reported `total_tokens` is `prompt_tokens + completion_tokens`. -/
theorem C9_usage_counters (d : Decoder) (req : GenerateRequest)
    (ids out : List Nat) (text : String)
    (htok : d.tokenize req.prompt = .ok ids)
    (hgen : d.generateOut (decodeCallOf req ids) = .ok out)
    (hdec : d.detok (out.drop ids.length) = .ok text) :
    ∃ p c t : Int, generateBody d req = .ok (.ok text p c t) ∧
      p = ids.length ∧ c = max 0 ((out.length : Int) - p) ∧
      t = p + c ∧ 0 ≤ c := by
  have hbody := generateBody_eq d req ids htok
  refine ⟨ids.length, max 0 ((out.length : Int) - ids.length),
    ids.length + max 0 ((out.length : Int) - ids.length), ?_, rfl, rfl, rfl,
    le_max_left 0 _⟩
  simp only [hbody, hgen, hdec]

/-- Claim C9 witness: Output (length 2) shorter than the prompt
(length 3): `completion_tokens = 0` and `total_tokens = 3`. -/
theorem C9_witness :
    ∃ p c t : Int,
      generateBody shortDecoder { prompt := "p" } = .ok (.ok "" p c t) ∧
      p = 3 ∧ c = 0 ∧ t = 3 := by
  obtain ⟨p, c, t, h, hp, hc, ht, -⟩ :=
    C9_usage_counters shortDecoder { prompt := "p" } [1, 2, 3] [1, 2] ""
      rfl rfl rfl
  refine ⟨p, c, t, h, by rw [hp]; decide, ?_, ?_⟩
  · rw [hc, hp]
    decide
  · rw [ht, hc, hp]
    decide

/-- Claim C10: The model field of the request is ignored: the handler serves
`_default_model()` (the `RAWORC_GPT_MODEL` value, or
`"openai/gpt-oss-120b"` when unset) whatever the field holds, so two
requests differing only in `model` give identical endpoint results; and
`load` substitutes `_default_model()` for its argument, so its result
never depends on the id it was called with. -/
theorem C10_model_field_ignored (em : Option String) (s t : ModelHolder)
    (d : Decoder) (req : GenerateRequest) (m1 m2 : Option String)
    (env : LoadEnv) (a b : String) (v : String) :
    generateEndpoint em s d { req with model := m1 } =
      generateEndpoint em s d { req with model := m2 } ∧
    t.load env a = t.load env b ∧
    _default_model none = "openai/gpt-oss-120b" ∧
    _default_model (some v) = v :=
  ⟨rfl, rfl, rfl, rfl⟩

/-- The function `load` never touches the `loading` flag (only the `finally`
clause of the worker does). -/
theorem load_preserves_loading (env : LoadEnv) (s : ModelHolder) (mid : String) :
    (s.load env mid).1.loading = s.loading := by
  unfold ModelHolder.load
  dsimp only
  (repeat' split) <;> rfl

/-- The `try`/`except` body of the worker never touches the `loading` flag. -/
theorem workerBody_loading (env : LoadEnv) (s : ModelHolder) :
    (workerBody env s).loading = s.loading := by
  unfold workerBody
  cases h : (s.load env (_default_model env.env_model)).2 <;>
    simp [h, load_preserves_loading]

/-- When `ensure_loaded_async` starts a thread, the holder was neither
ready for the target nor loading, and the only change is
`loading := true`. -/
theorem ensure_start_spec (em : Option String) (mid : String) (s : ModelHolder)
    (h : (s.ensure_loaded_async em mid).2 = true) :
    (s.ensure_loaded_async em mid).1 = { s with loading := true } ∧
    ¬ (s.model ∧ s.model_id = some (_default_model em)) ∧
    s.loading = false := by
  unfold ModelHolder.ensure_loaded_async at h ⊢
  split at h
  · exact absurd h (by simp)
  · rename_i hcond
    refine ⟨by rw [if_neg hcond], fun hr => hcond (Or.inl hr), ?_⟩
    cases hb : s.loading
    · rfl
    · exact absurd (Or.inr (by simp [hb])) hcond

/-- The predicate `ready_for` is false whenever the model slot does not hold the
target id. -/
theorem ready_for_false_of_not (em : Option String) (s : ModelHolder)
    (mid : String) (h : ¬ (s.model ∧ s.model_id = some (_default_model em))) :
    s.ready_for em mid = false := by
  unfold ModelHolder.ready_for
  cases hm : s.model
  · rfl
  · simp only [Bool.true_and]
    exact decide_eq_false fun hid => h ⟨hm, hid⟩

/-- Invariant of the lifecycle: while a worker thread exists,
`loading` is true; and until the worker has run the load body, the
holder is not ready for any id. -/
def LifecycleInv (em : Option String) (c : Config) : Prop :=
  (c.worker = .spawned → c.holder.loading = true ∧
    ∀ mid, c.holder.ready_for em mid = false) ∧
  (c.worker = .bodyDone → c.holder.loading = true)

/-- The invariant holds initially. -/
theorem init_inv (em : Option String) : LifecycleInv em Config.init :=
  ⟨fun h => by simp [Config.init] at h, fun h => by simp [Config.init] at h⟩

/-- Every step preserves the lifecycle invariant. -/
theorem step_preserves_inv {env : LoadEnv} {a b : Config}
    (hs : Step env a b) (ha : LifecycleInv env.env_model a) :
    LifecycleInv env.env_model b := by
  cases hs with
  | trigger h2 =>
    obtain ⟨heq, hnr, -⟩ :=
      ensure_start_spec env.env_model (_default_model env.env_model) a.holder h2
    refine ⟨fun _ => ⟨?_, fun mid => ?_⟩, fun h => by simp at h⟩
    · show ((a.holder.ensure_loaded_async env.env_model
        (_default_model env.env_model)).1).loading = true
      rw [heq]
    · show ((a.holder.ensure_loaded_async env.env_model
        (_default_model env.env_model)).1).ready_for env.env_model mid = false
      rw [heq]
      exact ready_for_false_of_not env.env_model _ mid hnr
  | runBody hw =>
    refine ⟨fun h => by simp at h, fun _ => ?_⟩
    show (workerBody env a.holder).loading = true
    rw [workerBody_loading]
    exact (ha.1 hw).1
  | runFinally hw =>
    exact ⟨fun h => by simp at h, fun h => by simp at h⟩

/-- The invariant holds in every reachable configuration. -/
theorem reach_preserves_inv {env : LoadEnv} {a b : Config}
    (hr : Reach env a b) (ha : LifecycleInv env.env_model a) :
    LifecycleInv env.env_model b := by
  induction hr with
  | refl c => exact ha
  | head hs _ ih => exact ih (step_preserves_inv hs ha)

/-- Claim C7 amended: In every reachable configuration in which the
loading flag is true *and the in-flight background load has not yet run
its load body*, `ready_for` returns false for every id.  (Once the load
body has installed the model — and until the `finally` clause of the worker
resets the flag — `ready_for` returns true with `loading` still true;
see the counterexample.) -/
theorem C7_not_ready_while_load_pending (env : LoadEnv) (c : Config)
    (mid : String) (hr : Reach env Config.init c)
    (hw : c.worker = .spawned) :
    c.holder.loading = true ∧
    c.holder.ready_for env.env_model mid = false := by
  have hinv := reach_preserves_inv hr (init_inv env.env_model)
  exact ⟨(hinv.1 hw).1, (hinv.1 hw).2 mid⟩

/-- The configuration right after a trigger from the initial state. -/
def spawnedCfg : Config := ⟨{ ModelHolder.init with loading := true }, .spawned⟩

/-- Claim C7 witness: The configuration reached by one trigger from the
initial state has `loading = true`, a pending load body, and is not
ready. -/
theorem C7_witness :
    Reach envGood Config.init spawnedCfg ∧
    spawnedCfg.holder.loading = true ∧
    spawnedCfg.holder.ready_for envGood.env_model "openai/gpt-oss-120b" = false := by
  have hstep : Step envGood Config.init
      ⟨(Config.init.holder.ensure_loaded_async envGood.env_model
        (_default_model envGood.env_model)).1, .spawned⟩ :=
    Step.trigger (by decide)
  have hcfg : (⟨(Config.init.holder.ensure_loaded_async envGood.env_model
      (_default_model envGood.env_model)).1, .spawned⟩ : Config) = spawnedCfg := by
    decide
  have hreach : Reach envGood Config.init spawnedCfg :=
    hcfg ▸ Reach.head hstep (Reach.refl _)
  refine ⟨hreach, ?_, ?_⟩
  · exact (C7_not_ready_while_load_pending envGood spawnedCfg
      "openai/gpt-oss-120b" hreach rfl).1
  · exact (C7_not_ready_while_load_pending envGood spawnedCfg
      "openai/gpt-oss-120b" hreach rfl).2

/-- Claim C7 counterexample: A reachable configuration (trigger, then
load body, before the `finally` clause) in which `loading` is true and
yet `ready_for` returns true for the target id: the load body has
already installed `model` and `model_id`, and `ready_for` never
consults the `loading` flag. -/
theorem C7_counterexample :
    Reach envGood Config.init
      ⟨{ model_id := some "openai/gpt-oss-120b", model := true, tok := true,
         loading := true, last_error := none, quant_enforced := true,
         quant_method := some "mxfp4" }, .bodyDone⟩ ∧
    ({ model_id := some "openai/gpt-oss-120b", model := true, tok := true,
       loading := true, last_error := none, quant_enforced := true,
       quant_method := some "mxfp4" } : ModelHolder).loading = true ∧
    ({ model_id := some "openai/gpt-oss-120b", model := true, tok := true,
       loading := true, last_error := none, quant_enforced := true,
       quant_method := some "mxfp4" } : ModelHolder).ready_for
      envGood.env_model "openai/gpt-oss-120b" = true := by
  refine ⟨?_, rfl, by decide⟩
  have h1 : Step envGood Config.init
      ⟨(Config.init.holder.ensure_loaded_async envGood.env_model
        (_default_model envGood.env_model)).1, .spawned⟩ :=
    Step.trigger (by decide)
  have h2 : Step envGood
      ⟨(Config.init.holder.ensure_loaded_async envGood.env_model
        (_default_model envGood.env_model)).1, .spawned⟩
      ⟨workerBody envGood
        (Config.init.holder.ensure_loaded_async envGood.env_model
          (_default_model envGood.env_model)).1, .bodyDone⟩ :=
    Step.runBody rfl
  have hcfg : (⟨workerBody envGood
      (Config.init.holder.ensure_loaded_async envGood.env_model
        (_default_model envGood.env_model)).1, .bodyDone⟩ : Config) =
      ⟨{ model_id := some "openai/gpt-oss-120b", model := true, tok := true,
         loading := true, last_error := none, quant_enforced := true,
         quant_method := some "mxfp4" }, .bodyDone⟩ := by
    decide
  exact hcfg ▸ Reach.head h1 (Reach.head h2 (Reach.refl _))

/-- The holder state left behind by a background load whose quantization
verification failed (no `hf_quantizer` attached): `load` had already
installed `model`, `model_id` and cleared `last_error` before raising,
the worker then recorded the message and reset `loading`. -/
def failedQuantHolder : ModelHolder :=
  { model_id := some "openai/gpt-oss-120b", model := true, tok := true,
    loading := false,
    last_error := some "MXFP4 required but model.hf_quantizer missing (dequantized)",
    quant_enforced := true, quant_method := none }

/-- Claim C1: Evaluation of the code at the failing input: a background
load under `envNoQuantizer` (model loads, but no `hf_quantizer` is
attached) reaches `failedQuantHolder`, where `last_error` is non-empty
and `/ready` reports `status = "error"` as the claim says — but
`ready_for` returns TRUE (not false as claimed), because `load` assigned
`self.model` and `self.model_id` (lines 79-82) before the verification
raise (lines 86-97), and so `/generate` proceeds to serve the
unverified model. -/
theorem C1_quant_failure_still_served :
    Reach envNoQuantizer Config.init ⟨failedQuantHolder, .idle⟩ ∧
    failedQuantHolder.last_error ≠ none ∧
    (readyEndpoint none failedQuantHolder).2.status = "error" ∧
    failedQuantHolder.ready_for none "openai/gpt-oss-120b" = true ∧
    (generateEndpoint none failedQuantHolder stubStopDecoder
      { prompt := "x" }).2 = .ok (.ok "foo STOP bar" 1 3 4) := by
  refine ⟨?_, by decide, rfl, rfl, rfl⟩
  have h1 : Step envNoQuantizer Config.init
      ⟨(Config.init.holder.ensure_loaded_async envNoQuantizer.env_model
        (_default_model envNoQuantizer.env_model)).1, .spawned⟩ :=
    Step.trigger (by decide)
  have h2 : Step envNoQuantizer
      ⟨(Config.init.holder.ensure_loaded_async envNoQuantizer.env_model
        (_default_model envNoQuantizer.env_model)).1, .spawned⟩
      ⟨workerBody envNoQuantizer
        (Config.init.holder.ensure_loaded_async envNoQuantizer.env_model
          (_default_model envNoQuantizer.env_model)).1, .bodyDone⟩ :=
    Step.runBody rfl
  have h3 : Step envNoQuantizer
      ⟨workerBody envNoQuantizer
        (Config.init.holder.ensure_loaded_async envNoQuantizer.env_model
          (_default_model envNoQuantizer.env_model)).1, .bodyDone⟩
      ⟨{ (workerBody envNoQuantizer
          (Config.init.holder.ensure_loaded_async envNoQuantizer.env_model
            (_default_model envNoQuantizer.env_model)).1) with
          loading := false }, .idle⟩ :=
    Step.runFinally rfl
  have hcfg : (⟨{ (workerBody envNoQuantizer
      (Config.init.holder.ensure_loaded_async envNoQuantizer.env_model
        (_default_model envNoQuantizer.env_model)).1) with
      loading := false }, .idle⟩ : Config) = ⟨failedQuantHolder, .idle⟩ := by
    decide
  exact hcfg ▸ Reach.head h1 (Reach.head h2 (Reach.head h3 (Reach.refl _)))

end Ractor
